import Mathlib

/-!
Verification development for the SunoNodeServer session-lifecycle and
credit-failover core (src/src/lib/SunoApi.js, src/src/lib/SunoApi.ts,
src/src/lib/server.js).

The definitions below are a shallow embedding of the source: the external
quota service is modelled as a function from credentials to remaining
credits (every quota check is a fresh query; during a single guarded call
the upstream billing state is taken as fixed), and the observable side
effects of the failover decorator (credential initializations, active
pointer writes, and the final dispatch of the wrapped operation) are
recorded as an event trace.
-/

namespace SunoServer

/-- License record held by the Credential Store (GoogleSheetService rows):
an account label plus the cookie secret (`licenseKey`). -/
structure Lic where
  account : String
  licenseKey : String
deriving DecidableEq, Repr

/-- Observable side effects of one guarded call of `licenseCheckDecorator`
(SunoApi.js:315-342), in order of occurrence:
 * `initCred lic` — `sunoApi = await newSunoApi(lic.licenseKey)`, a full
   session initialization for a candidate credential;
 * `promote lic` — `activeSunoLicense = lic` followed by
   `await sheetService.setSunoActiveLicense(lic.account, lic.licenseKey)`,
   the Credential Store active-pointer write;
 * `invoke lic` — the undecorated wrapped operation finally runs on the
   session bound to `lic` and its result is returned unchanged. -/
inductive GuardEvent
  | initCred (lic : Lic)
  | promote (lic : Lic)
  | invoke (lic : Lic)
deriving DecidableEq, Repr

/-- The candidate loop of `licenseCheckDecorator` (SunoApi.js:320-334):
for each license in store order, stand up a new instance (so the license is
initialized), query its fresh credits, and stop at the first candidate with
`credits_left >= T`. Returns the list of initialized candidates (in order)
and the first viable candidate, if any. -/
def scanLicenses (quota : Lic → Int) (T : Int) : List Lic → List Lic × Option Lic
  | [] => ([], none)
  | lic :: rest =>
    if T ≤ quota lic then ([lic], some lic)
    else
      let r := scanLicenses quota T rest
      (lic :: r.1, r.2)

/-- `licenseCheckDecorator` (SunoApi.js:315-342), as a trace-producing
function. `quota` gives each credential's `credits_left` as reported by
`get_credits`; `licKeys` is `sheetService.getSunoLicenseKeys()`; `T` is the
literal threshold `10`; `active` is the credential the current session is
bound to. When a viable candidate is found the code re-dispatches via
`(await sunoApi)[method.name](...args)`, which hits the freshly decorated
method of the new instance — modelled by the recursive call, bounded by
`fuel` (the recursion depth of nested decorator activations); `none` means
the fuel was exhausted before the call completed. Taking `quota` as a
function of the credential alone models a call during which every fresh
`get_credits` read of a credential reports the same value (stable reads);
`licenseCheckDecoratorT` below generalizes this to reads that may disagree
across time. -/
def licenseCheckDecorator (quota : Lic → Int) (licKeys : List Lic) (T : Int) :
    Nat → Lic → Option (List GuardEvent)
  | 0, _ => none
  | fuel + 1, active =>
    if quota active < T then
      match scanLicenses quota T licKeys with
      | (inits, some lic) =>
        match licenseCheckDecorator quota licKeys T fuel lic with
        | some evs => some (inits.map GuardEvent.initCred ++ GuardEvent.promote lic :: evs)
        | none => none
      | (inits, none) => some (inits.map GuardEvent.initCred ++ [GuardEvent.invoke active])
    else
      some [GuardEvent.invoke active]

/-- The Credential Store writes (`setSunoActiveLicense` calls) recorded in a
guard trace. -/
def promotionsOf (evs : List GuardEvent) : List Lic :=
  evs.filterMap fun e =>
    match e with
    | GuardEvent.promote lic => some lic
    | _ => none

/-- The candidate loop of `licenseCheckDecorator` (SunoApi.js:320-334) over
a read-indexed quota oracle: `get_credits` performs a fresh HTTP query on
every call, and the spec (§3) requires treating the reported `remaining` as
service-controlled input, so two reads of the same credential may disagree.
`t` counts the quota reads already made during the guarded call and
`quota t lic` is the value the `t`-th read reports for `lic`. Returns the
read counter after the scan, the initialized candidates in order, and the
first candidate whose fresh read was at or above `T`, if any. -/
def scanLicensesT (quota : Nat → Lic → Int) (T : Int) :
    List Lic → Nat → Nat × List Lic × Option Lic
  | [], t => (t, [], none)
  | lic :: rest, t =>
    if T ≤ quota t lic then (t + 1, [lic], some lic)
    else
      let r := scanLicensesT quota T rest (t + 1)
      (r.1, lic :: r.2.1, r.2.2)

/-- `licenseCheckDecorator` (SunoApi.js:315-342) over the read-indexed
quota oracle of `scanLicensesT`: identical control flow to
`licenseCheckDecorator`, but each `get_credits` consumes the next read
index, so the fresh read the re-dispatched decorator makes for the
just-promoted credential (SunoApi.js:330 lands on the new instance's
decorated method, since `init` runs `setupBindings`) may disagree with the
read the scan made. Returns the final read counter and the event trace. -/
def licenseCheckDecoratorT (quota : Nat → Lic → Int) (licKeys : List Lic) (T : Int) :
    Nat → Nat → Lic → Option (Nat × List GuardEvent)
  | 0, _, _ => none
  | fuel + 1, t, active =>
    if quota t active < T then
      match scanLicensesT quota T licKeys (t + 1) with
      | (t2, inits, some lic) =>
        match licenseCheckDecoratorT quota licKeys T fuel t2 lic with
        | some (t3, evs) =>
          some (t3, inits.map GuardEvent.initCred ++ GuardEvent.promote lic :: evs)
        | none => none
      | (t2, inits, none) =>
        some (t2, inits.map GuardEvent.initCred ++ [GuardEvent.invoke active])
    else some (t + 1, [GuardEvent.invoke active])

/-- Credit threshold of `licenseCheckDecorator` (SunoApi.js:318): the guard
takes the slow failover path when `credits.credits_left < 10`, and a
candidate is viable when `credits.credits_left >= 10`. -/
def generationCreditThreshold : Int := 10

/-- Credit threshold of `change_Account` (SunoApi.ts:447): the feed-fetch
path (`get`) switches account when `credits.credits_left < 44`. -/
def feedFetchCreditThreshold : Int := 44

/-- Which instance `change_Account` (SunoApi.ts:443-466) runs the wrapped
api call on. -/
inductive FeedTarget
  | originalInstance
  | fallbackInstance
deriving DecidableEq, Repr

/-- `change_Account` (SunoApi.ts:443-466): if the current instance's
`credits_left` is below 44, initialize a fresh instance from the hard-coded
fallback cookie and run the api call on it; otherwise run it on `this`. -/
def change_Account (credits_left : Int) : FeedTarget :=
  if credits_left < feedFetchCreditThreshold then FeedTarget.fallbackInstance
  else FeedTarget.originalInstance

/-- The five generation operations of SunoApi.js. -/
inductive GenOp
  | generate
  | concatenate
  | custom_generate
  | generateLyrics
  | extendAudio
deriving DecidableEq, Repr

/-- `setupBindings` (SunoApi.js:26-32): the methods that are reassigned to
their `licenseCheckDecorator`-wrapped versions, in source order. -/
def setupBindings : List GenOp :=
  [GenOp.generate, GenOp.concatenate, GenOp.custom_generate,
   GenOp.generateLyrics, GenOp.extendAudio]

/-- An operation is guarded by the credit-failover decorator exactly when
`setupBindings` rebinds it. -/
def isGuarded (op : GenOp) : Bool := setupBindings.contains op

/-- The three upstream response fields consumed during `init`
(SunoApi.js:34-95): the clerk version tag (`data.tags.latest`), the
identity provider's `last_active_session_id`, and the token-renewal
response's `jwt` field. `none` models a missing field; `some ""` an empty
string (both falsy in the source's truthiness checks). -/
structure InitResponses where
  clerkLatest : Option String
  lastActiveSessionId : Option String
  renewJwt : Option String
deriving DecidableEq, Repr

/-- Session state of a `SunoApi` instance after `init`: `clerkVersion`,
`sid` and `currentToken` (the bearer token, possibly still undefined). -/
structure Session where
  clerkVersion : String
  sid : String
  currentToken : Option String
deriving DecidableEq, Repr

/-- JavaScript truthiness of an optional string: `undefined` and the empty
string are falsy. -/
def truthy : Option String → Bool
  | none => false
  | some s => s != ""

/-- `getClerkLatestVersion` (SunoApi.js:65-72): throws unless the version
response has a truthy `tags.latest`; otherwise stores it. -/
def getClerkLatestVersion (r : InitResponses) : Except String String :=
  if truthy r.clerkLatest then Except.ok (r.clerkLatest.getD "")
  else Except.error ("Failed to get clerk version info, Please try again later")

/-- `getAuthToken` (SunoApi.js:74-81): throws unless the session response
has a truthy `last_active_session_id`; otherwise stores it as `sid`. -/
def getAuthToken (r : InitResponses) : Except String String :=
  if truthy r.lastActiveSessionId then Except.ok (r.lastActiveSessionId.getD "")
  else Except.error ("Failed to get session id, you may need to update the SUNO_COOKIE")

/-- `keepAlive` (SunoApi.js:83-95): throws if no `sid` is set, then assigns
`currentToken = renewResponse.data["jwt"]` with no validation of the
field's presence. -/
def keepAlive (sid : String) (r : InitResponses) : Except String (Option String) :=
  if sid = "" then Except.error ("Session ID is not set. Cannot renew token.")
  else Except.ok r.renewJwt

/-- `init` (SunoApi.js:34-63): version lookup, then session establishment,
then one token renewal; any throw aborts the whole initialization. -/
def init (r : InitResponses) : Except String Session :=
  match getClerkLatestVersion r with
  | Except.error e => Except.error e
  | Except.ok v =>
    match getAuthToken r with
    | Except.error e => Except.error e
    | Except.ok sid =>
      match keepAlive sid r with
      | Except.error e => Except.error e
      | Except.ok tok => Except.ok ⟨v, sid, tok⟩

/-- One entry of the feed response as mapped by `get` (SunoApi.js:257-288):
only the fields the poll loop inspects are kept. -/
structure Clip where
  id : String
  status : String
deriving DecidableEq, Repr

/-- Terminal-success test of the wait loop (SunoApi.js:181-183):
`response.every(audio => audio.status === "streaming" || audio.status === "complete")`. -/
def allCompleted (response : List Clip) : Bool :=
  response.all fun audio => audio.status == "streaming" || audio.status == "complete"

/-- Terminal-failure test of the wait loop (SunoApi.js:184):
`response.every(audio => audio.status === "error")`. -/
def allError (response : List Clip) : Bool :=
  response.all fun audio => audio.status == "error"

/-- The `wait_audio` poll loop of `generateSongs` (SunoApi.js:175-192).
`polls i` is the snapshot fetched by `this.get(songIds)` on iteration `i`;
`dur i` is the total time (ms) iteration `i` takes when the loop does not
exit there (fetch plus `sleep(3, 6)` plus `keepAlive(true)`); `elapsed` is
`Date.now() - startTime` at the loop test, starting at 5000 after the
initial `sleep(5, 5)`. The loop test is `elapsed < 100000`; `fuel` bounds
the number of iterations and `none` means it was exhausted before the loop
exited. -/
def pollLoop (polls : Nat → List Clip) (dur : Nat → Nat) :
    Nat → Nat → Nat → List Clip → Option (Nat × List Clip)
  | 0, _, elapsed, lastResponse =>
    if elapsed < 100000 then none else some (elapsed, lastResponse)
  | fuel + 1, i, elapsed, lastResponse =>
    if elapsed < 100000 then
      let response := polls i
      if allCompleted response || allError response then some (elapsed, response)
      else pollLoop polls dur fuel (i + 1) (elapsed + dur i) response
    else some (elapsed, lastResponse)

/-- The feed fetch `this.get(songIds)` (SunoApi.js:257-288) as seen by the
poll loop: one mapped entry per requested song id, whose status on
iteration `i` is reported by the upstream as `statusAt i id`. -/
def feedFetch (statusAt : Nat → String → String) (i : Nat) (songIds : List String) :
    List Clip :=
  songIds.map fun songId => { id := songId, status := statusAt i songId }

/-- The lyrics status payload polled by `generateLyrics`
(SunoApi.js:215-234). -/
structure LyricsData where
  status : String
deriving DecidableEq, Repr

/-- The polling loop of `generateLyrics` (SunoApi.js:223-231): fetch the
lyrics job, and while its `status` is not `"complete"`, sleep 2 seconds and
fetch again — with no deadline. `resp i` is the `i`-th fetched response;
`fuel` bounds the observed iterations, and `none` means the loop was still
running when the bound was reached. -/
def lyricsPoll (resp : Nat → LyricsData) : Nat → Nat → Option LyricsData
  | 0, _ => none
  | fuel + 1, i =>
    if (resp i).status = "complete" then some (resp i)
    else lyricsPoll resp fuel (i + 1)

/-- The duration (ms) computed by `sleep(x, y)` (SunoApi.js:365-375):
exactly `x * 1000` when `y` is `undefined` or equal to `x`; otherwise a
randomized `r * 1000` where `r` is the integer drawn uniformly from
`[min x y, max x y]`. -/
def sleepTimeout (x : Nat) (y : Option Nat) (r : Nat) : Nat :=
  match y with
  | none => x * 1000
  | some yv => if yv = x then x * 1000 else r * 1000

end SunoServer

namespace SunoServer

theorem scanLicenses_all_low (quota : Lic → Int) (T : Int) :
    ∀ l : List Lic, (∀ c ∈ l, quota c < T) → scanLicenses quota T l = (l, none) := by
  intro l
  induction l with
  | nil => intro _; rfl
  | cons lic rest ih =>
    intro h
    have hl : quota lic < T := h lic (List.mem_cons_self _ _)
    have hr := ih fun c hc => h c (List.mem_cons_of_mem _ hc)
    rw [scanLicenses, if_neg (not_le.mpr hl)]
    simp [hr]

theorem scanLicenses_split (quota : Lic → Int) (T : Int) (lic : Lic) (post : List Lic)
    (hlic : T ≤ quota lic) :
    ∀ pre : List Lic, (∀ c ∈ pre, quota c < T) →
      scanLicenses quota T (pre ++ lic :: post) = (pre ++ [lic], some lic) := by
  intro pre
  induction pre with
  | nil => intro _; simp [scanLicenses, if_pos hlic]
  | cons c pre ih =>
    intro h
    have hc : quota c < T := h c (List.mem_cons_self _ _)
    have hr := ih fun d hd => h d (List.mem_cons_of_mem _ hd)
    rw [List.cons_append, scanLicenses, if_neg (not_le.mpr hc)]
    simp [hr]

theorem scanLicenses_found_viable (quota : Lic → Int) (T : Int) :
    ∀ (l inits : List Lic) (lic : Lic),
      scanLicenses quota T l = (inits, some lic) → T ≤ quota lic := by
  intro l
  induction l with
  | nil =>
    intro inits lic h
    simp [scanLicenses] at h
  | cons c rest ih =>
    intro inits lic h
    rw [scanLicenses] at h
    by_cases hc : T ≤ quota c
    · rw [if_pos hc] at h
      obtain ⟨-, h2⟩ := Prod.mk.injEq _ _ _ _ ▸ h
      obtain rfl : c = lic := Option.some.inj h2
      exact hc
    · rw [if_neg hc] at h
      rcases hrest : scanLicenses quota T rest with ⟨i, f⟩
      rw [hrest] at h
      dsimp only at h
      obtain ⟨-, h2⟩ := Prod.mk.injEq _ _ _ _ ▸ h
      exact ih i lic (by rw [hrest, h2])

theorem promotionsOf_append (a b : List GuardEvent) :
    promotionsOf (a ++ b) = promotionsOf a ++ promotionsOf b := by
  simp [promotionsOf]

theorem promotionsOf_map_initCred (l : List Lic) :
    promotionsOf (l.map GuardEvent.initCred) = [] := by
  induction l with
  | nil => rfl
  | cons c l ih => simp [promotionsOf, List.filterMap_cons]

theorem licenseCheck_high_credits (quota : Lic → Int) (licKeys : List Lic) (T : Int)
    (fuel : Nat) (active : Lic) (h : T ≤ quota active) :
    licenseCheckDecorator quota licKeys T (fuel + 1) active =
      some [GuardEvent.invoke active] := by
  rw [licenseCheckDecorator, if_neg (not_lt.mpr h)]

/-- Claim C1: when the active session's remaining credits are at or above
the threshold, the guard performs no Credential Store write (no `promote`
event), initializes no candidate, and invokes the wrapped operation on the
original active session, returning its result unchanged. -/
theorem guard_fast_path_no_store_write (quota : Lic → Int) (licKeys : List Lic)
    (T : Int) (fuel : Nat) (active : Lic) (h : T ≤ quota active) :
    licenseCheckDecorator quota licKeys T (fuel + 1) active =
      some [GuardEvent.invoke active] :=
  licenseCheck_high_credits quota licKeys T fuel active h

/-- Witness for C1 at a concrete input: an active credential with 50
credits against threshold 10 yields exactly one event, the invocation on
the original session. -/
theorem guard_fast_path_no_store_write_witness :
    licenseCheckDecorator (fun _ => 50) [] 10 1 ⟨"main", "ck0"⟩ =
      some [GuardEvent.invoke ⟨"main", "ck0"⟩] :=
  guard_fast_path_no_store_write (fun _ => 50) [] 10 0 ⟨"main", "ck0"⟩ (by decide)

/-- Claim C2: when the active session's credits are below the threshold and
`lic` is the first candidate in store order whose fresh credits are at or
above the threshold (every earlier candidate `c ∈ pre` is below), the guard
initializes exactly the candidates up to and including `lic` (none after
it), writes the Credential Store active pointer to `lic` exactly once, and
only then invokes the operation on the session bound to `lic`. -/
theorem guard_promotes_first_viable (quota : Lic → Int) (T : Int)
    (pre post : List Lic) (lic active : Lic) (fuel : Nat)
    (hlow : quota active < T)
    (hpre : ∀ c ∈ pre, quota c < T)
    (hlic : T ≤ quota lic) :
    licenseCheckDecorator quota (pre ++ lic :: post) T (fuel + 2) active =
      some ((pre ++ [lic]).map GuardEvent.initCred ++
        GuardEvent.promote lic :: [GuardEvent.invoke lic]) := by
  rw [licenseCheckDecorator, if_pos hlow,
    scanLicenses_split quota T lic post hlic pre hpre]
  dsimp only
  rw [licenseCheck_high_credits quota (pre ++ lic :: post) T fuel lic hlic]

/-- Witness for C2 at a concrete input: with the active account at 3
credits, a first candidate at 2 and a second at 50 against threshold 10,
the trace initializes the first two candidates, promotes the second, and
invokes on it; the third candidate is untouched. -/
theorem guard_promotes_first_viable_witness :
    licenseCheckDecorator
        (fun l => if l.account == "good" then 50 else if l.account == "main" then 3 else 2)
        [⟨"bad1", "ck1"⟩, ⟨"good", "ck2"⟩, ⟨"later", "ck3"⟩] 10 2 ⟨"main", "ck0"⟩ =
      some [GuardEvent.initCred ⟨"bad1", "ck1"⟩, GuardEvent.initCred ⟨"good", "ck2"⟩,
        GuardEvent.promote ⟨"good", "ck2"⟩, GuardEvent.invoke ⟨"good", "ck2"⟩] :=
  guard_promotes_first_viable
    (fun l => if l.account == "good" then 50 else if l.account == "main" then 3 else 2)
    10 [⟨"bad1", "ck1"⟩] [⟨"later", "ck3"⟩] ⟨"good", "ck2"⟩ ⟨"main", "ck0"⟩ 0
    (by decide) (by decide) (by decide)

/-- Claim C3: when the active session's credits are below the threshold and
no candidate in the store is viable, the guard does not fail: it
initializes every candidate, performs no Credential Store write, and falls
through to invoking the operation on the original active session, returning
whatever that invocation produces. -/
theorem guard_degraded_fallback (quota : Lic → Int) (licKeys : List Lic) (T : Int)
    (fuel : Nat) (active : Lic)
    (hlow : quota active < T)
    (hnone : ∀ c ∈ licKeys, quota c < T) :
    licenseCheckDecorator quota licKeys T (fuel + 1) active =
      some (licKeys.map GuardEvent.initCred ++ [GuardEvent.invoke active]) := by
  rw [licenseCheckDecorator, if_pos hlow, scanLicenses_all_low quota T licKeys hnone]

/-- Witness for C3 at a concrete input: active account at 3 credits and two
candidates at 2 and 5 against threshold 10 — the guard still returns a
trace, ending in the invocation on the original account, with no promote
event. -/
theorem guard_degraded_fallback_witness :
    licenseCheckDecorator (fun l => if l.account == "main" then 3 else if l.account == "bad1" then 2 else 5)
        [⟨"bad1", "ck1"⟩, ⟨"bad2", "ck2"⟩] 10 1 ⟨"main", "ck0"⟩ =
      some [GuardEvent.initCred ⟨"bad1", "ck1"⟩, GuardEvent.initCred ⟨"bad2", "ck2"⟩,
        GuardEvent.invoke ⟨"main", "ck0"⟩] :=
  guard_degraded_fallback
    (fun l => if l.account == "main" then 3 else if l.account == "bad1" then 2 else 5)
    [⟨"bad1", "ck1"⟩, ⟨"bad2", "ck2"⟩] 10 0 ⟨"main", "ck0"⟩ (by decide) (by decide)

theorem licenseCheck_fixed_at_most_one_promotion (quota : Lic → Int)
    (licKeys : List Lic) (T : Int)
    (fuel : Nat) (active : Lic) (evs : List GuardEvent)
    (h : licenseCheckDecorator quota licKeys T fuel active = some evs) :
    (promotionsOf evs).length ≤ 1 := by
  match fuel with
  | 0 => exact absurd h (by simp [licenseCheckDecorator])
  | fuel + 1 =>
    rw [licenseCheckDecorator] at h
    by_cases hq : quota active < T
    · rw [if_pos hq] at h
      rcases hscan : scanLicenses quota T licKeys with ⟨inits, found⟩
      rw [hscan] at h
      match found with
      | none =>
        dsimp only at h
        obtain rfl : _ = evs := Option.some.inj h
        rw [promotionsOf_append, promotionsOf_map_initCred]
        simp [promotionsOf]
      | some lic =>
        have hT : T ≤ quota lic := scanLicenses_found_viable quota T licKeys inits lic hscan
        dsimp only at h
        match fuel with
        | 0 => simp [licenseCheckDecorator] at h
        | fuel + 1 =>
          rw [licenseCheck_high_credits quota licKeys T fuel lic hT] at h
          dsimp only at h
          obtain rfl : _ = evs := Option.some.inj h
          rw [promotionsOf_append, promotionsOf_map_initCred]
          simp [promotionsOf, List.filterMap_cons]
    · rw [if_neg hq] at h
      obtain rfl : _ = evs := Option.some.inj h
      simp [promotionsOf]

theorem scanLicensesT_const (q : Lic → Int) (T : Int) :
    ∀ (l : List Lic) (t : Nat),
      (scanLicensesT (fun _ c => q c) T l t).2 = scanLicenses q T l := by
  intro l
  induction l with
  | nil => intro t; rfl
  | cons lic rest ih =>
    intro t
    rw [scanLicensesT, scanLicenses]
    by_cases hc : T ≤ q lic
    · rw [if_pos hc, if_pos hc]
    · rw [if_neg hc, if_neg hc]
      dsimp only
      rw [show (scanLicensesT (fun _ c => q c) T rest (t + 1)).2.1 =
            (scanLicenses q T rest).1 from congrArg Prod.fst (ih (t + 1)),
          show (scanLicensesT (fun _ c => q c) T rest (t + 1)).2.2 =
            (scanLicenses q T rest).2 from congrArg Prod.snd (ih (t + 1))]

theorem licenseCheckDecoratorT_const (q : Lic → Int) (licKeys : List Lic) (T : Int) :
    ∀ (fuel t : Nat) (active : Lic),
      (licenseCheckDecoratorT (fun _ c => q c) licKeys T fuel t active).map Prod.snd =
        licenseCheckDecorator q licKeys T fuel active := by
  intro fuel
  induction fuel with
  | zero => intro t active; rfl
  | succ fuel ih =>
    intro t active
    rw [licenseCheckDecoratorT, licenseCheckDecorator]
    by_cases hq : q active < T
    · rw [if_pos hq, if_pos hq]
      rcases hT : scanLicensesT (fun _ c => q c) T licKeys (t + 1) with ⟨t2, inits, found⟩
      have hpair : (inits, found) = scanLicenses q T licKeys := by
        rw [← scanLicensesT_const q T licKeys (t + 1), hT]
      rw [← hpair]
      match found with
      | none => rfl
      | some lic =>
        dsimp only
        have hin := ih t2 lic
        rcases hinT : licenseCheckDecoratorT (fun _ c => q c) licKeys T fuel t2 lic with
          - | ⟨t3, evs⟩
        · rw [hinT] at hin
          rw [← hin]
          rfl
        · rw [hinT] at hin
          rw [← hin]
          rfl
    · rw [if_neg hq, if_neg hq]
      rfl

/-- Counterexample to claim C4 as stated: the re-dispatch lands on the new
instance's decorated method, which performs a fresh `get_credits` read, and
that read need not agree with the read the scan made. With reads reporting
3, 15, 3, 15, 15 credits in sequence (active account low, candidate A
viable at the scan, below threshold again at the re-dispatch's check, then
viable again), a single guarded call records two `setSunoActiveLicense`
writes. -/
theorem guard_second_promotion_counterexample :
    licenseCheckDecoratorT (fun t _ => if t = 0 ∨ t = 2 then (3 : Int) else 15)
        [⟨"acctA", "ckA"⟩] 10 3 0 ⟨"main", "ck0"⟩ =
      some (5, [GuardEvent.initCred ⟨"acctA", "ckA"⟩, GuardEvent.promote ⟨"acctA", "ckA"⟩,
        GuardEvent.initCred ⟨"acctA", "ckA"⟩, GuardEvent.promote ⟨"acctA", "ckA"⟩,
        GuardEvent.invoke ⟨"acctA", "ckA"⟩]) ∧
    (promotionsOf [GuardEvent.initCred ⟨"acctA", "ckA"⟩, GuardEvent.promote ⟨"acctA", "ckA"⟩,
      GuardEvent.initCred ⟨"acctA", "ckA"⟩, GuardEvent.promote ⟨"acctA", "ckA"⟩,
      GuardEvent.invoke ⟨"acctA", "ckA"⟩]).length = 2 := by
  decide

/-- Claim C4 (amended): a guarded call performs at most one Credential
Store active-pointer write provided the quota reads are stable during the
call — every fresh `get_credits` read reports the same credits for each
credential. The stability hypothesis is necessary: without it the
re-dispatched decorated operation's fresh read can come in below the
threshold and promote a second time (see the counterexample above). -/
theorem guard_at_most_one_promotion_stable_reads (quota : Nat → Lic → Int)
    (q : Lic → Int) (licKeys : List Lic) (T : Int) (fuel t tEnd : Nat)
    (active : Lic) (evs : List GuardEvent)
    (hstable : ∀ rd c, quota rd c = q c)
    (h : licenseCheckDecoratorT quota licKeys T fuel t active = some (tEnd, evs)) :
    (promotionsOf evs).length ≤ 1 := by
  have hfun : quota = fun _ c => q c := funext fun rd => funext fun c => hstable rd c
  subst hfun
  have hmap := licenseCheckDecoratorT_const q licKeys T fuel t active
  rw [h] at hmap
  exact licenseCheck_fixed_at_most_one_promotion q licKeys T fuel active evs hmap.symm

/-- Witness for the amended C4 at a concrete input: stable reads (candidate
at 50 credits on every read, active account at 3) yield a promoting guarded
call with exactly one active-pointer write. -/
theorem guard_at_most_one_promotion_stable_reads_witness :
    (promotionsOf [GuardEvent.initCred ⟨"good", "ck1"⟩, GuardEvent.promote ⟨"good", "ck1"⟩,
      GuardEvent.invoke ⟨"good", "ck1"⟩]).length ≤ 1 :=
  guard_at_most_one_promotion_stable_reads
    (fun _ l => if l.account == "good" then 50 else 3)
    (fun l => if l.account == "good" then 50 else 3)
    [⟨"good", "ck1"⟩] 10 2 0 3 ⟨"main", "ck0"⟩
    [GuardEvent.initCred ⟨"good", "ck1"⟩, GuardEvent.promote ⟨"good", "ck1"⟩,
      GuardEvent.invoke ⟨"good", "ck1"⟩]
    (fun _ _ => rfl) (by decide)

/-- Counterexample to claim C5 as stated: the threshold guarding the
feed-fetch path (`change_Account`, 44) is not strictly lower than the
threshold guarding generation submission (`licenseCheckDecorator`, 10) —
the relation is reversed in the code. -/
theorem feed_threshold_not_lower :
    ¬ feedFetchCreditThreshold < generationCreditThreshold := by decide

/-- Claim C5 (amended): both thresholds are configuration constants, and
the threshold guarding generation submission (10) is strictly lower than
the threshold guarding the feed-fetch path (44). -/
theorem generation_threshold_strictly_lower :
    generationCreditThreshold < feedFetchCreditThreshold := by decide

/-- Counterexample to claim C6 as stated: `setupBindings` wraps
`generateLyrics` and `extendAudio` in the credit-failover guard too, so
neither runs unguarded. -/
theorem lyrics_and_extend_are_guarded :
    isGuarded GenOp.generateLyrics = true ∧ isGuarded GenOp.extendAudio = true := by
  decide

/-- Claim C6 (amended): all five generation operations — `generate`,
`custom_generate`, `concatenate`, `generateLyrics` and `extendAudio` — are
wrapped by the credit-failover guard in `setupBindings`. -/
theorem all_five_operations_guarded : ∀ op : GenOp, isGuarded op = true := by
  intro op
  cases op <;> rfl

theorem truthy_getD_ne (o : Option String) (h : truthy o = true) : o.getD "" ≠ "" := by
  match o with
  | none => exact absurd h (by simp [truthy])
  | some s =>
    simp only [truthy, bne_iff_ne] at h
    simpa using h

/-- Counterexample to claim C7 as stated: when the version lookup and
session establishment succeed but the token-renewal response carries no
`jwt` field, `init` does not fail — it returns a partially-populated
session whose `sid` is set but whose bearer token is `none`. -/
theorem init_missing_jwt_counterexample :
    init ⟨some ("5.0.0"), some ("sess_abc"), none⟩ =
      Except.ok ⟨"5.0.0", "sess_abc", none⟩ := rfl

/-- Claim C7 (amended): `init` either fails with a version-lookup or
session-establish error, or returns a session whose `clerkVersion` and
`sid` are non-empty; the bearer token is taken verbatim from the renewal
response's `jwt` field without validation and may therefore be absent. -/
theorem init_ok_shape (r : InitResponses) (s : Session) (h : init r = Except.ok s) :
    s.clerkVersion ≠ "" ∧ s.sid ≠ "" ∧ s.currentToken = r.renewJwt := by
  unfold init at h
  rcases hv : getClerkLatestVersion r with e | v
  · rw [hv] at h; exact absurd h (by simp)
  · rw [hv] at h
    dsimp only at h
    rcases hs : getAuthToken r with e | sid
    · rw [hs] at h; exact absurd h (by simp)
    · rw [hs] at h
      dsimp only at h
      rcases hk : keepAlive sid r with e | tok
      · rw [hk] at h; exact absurd h (by simp)
      · rw [hk] at h
        dsimp only at h
        obtain rfl : Session.mk v sid tok = s := Except.ok.inj h
        unfold getClerkLatestVersion at hv
        unfold getAuthToken at hs
        unfold keepAlive at hk
        refine ⟨?_, ?_, ?_⟩
        · by_cases h1 : truthy r.clerkLatest = true
          · rw [if_pos h1] at hv
            obtain rfl : _ = v := Except.ok.inj hv
            exact truthy_getD_ne _ h1
          · rw [if_neg h1] at hv; exact absurd hv (by simp)
        · by_cases h2 : truthy r.lastActiveSessionId = true
          · rw [if_pos h2] at hs
            obtain rfl : _ = sid := Except.ok.inj hs
            exact truthy_getD_ne _ h2
          · rw [if_neg h2] at hs; exact absurd hs (by simp)
        · by_cases h3 : sid = ""
          · rw [if_pos h3] at hk; exact absurd hk (by simp)
          · rw [if_neg h3] at hk
            exact (Except.ok.inj hk).symm

/-- Witness for the amended C7 at a concrete input where every response
field is present. -/
theorem init_ok_shape_witness :
    Session.clerkVersion ⟨"5.0.0", "sess_abc", some ("jwt_1")⟩ ≠ "" ∧
    Session.sid ⟨"5.0.0", "sess_abc", some ("jwt_1")⟩ ≠ "" ∧
    Session.currentToken ⟨"5.0.0", "sess_abc", some ("jwt_1")⟩ =
      InitResponses.renewJwt ⟨some ("5.0.0"), some ("sess_abc"), some ("jwt_1")⟩ :=
  init_ok_shape ⟨some ("5.0.0"), some ("sess_abc"), some ("jwt_1")⟩
    ⟨"5.0.0", "sess_abc", some ("jwt_1")⟩ rfl

theorem pollLoop_exits_within_window (polls : Nat → List Clip) (dur : Nat → Nat)
    (D : Nat) (hmin : ∀ i, 4000 ≤ dur i) (hmax : ∀ i, dur i ≤ D) :
    ∀ (fuel i elapsed : Nat) (lastResponse : List Clip),
      elapsed < 100000 + D → 100000 ≤ elapsed + fuel * 4000 →
      ∃ t snap, pollLoop polls dur fuel i elapsed lastResponse = some (t, snap) ∧
        t < 100000 + D ∧ (snap = lastResponse ∨ ∃ j, snap = polls j) := by
  intro fuel
  induction fuel with
  | zero =>
    intro i elapsed lastResponse h1 h2
    refine ⟨elapsed, lastResponse, ?_, h1, Or.inl rfl⟩
    rw [pollLoop, if_neg (by omega)]
  | succ fuel ih =>
    intro i elapsed lastResponse h1 h2
    rw [pollLoop]
    by_cases hel : elapsed < 100000
    · rw [if_pos hel]
      dsimp only
      by_cases hterm : (allCompleted (polls i) || allError (polls i)) = true
      · rw [if_pos hterm]
        exact ⟨elapsed, polls i, rfl, by omega, Or.inr ⟨i, rfl⟩⟩
      · rw [if_neg hterm]
        have hD := hmax i
        have hm := hmin i
        obtain ⟨t, snap, heq, hb, hsnap⟩ :=
          ih (i + 1) (elapsed + dur i) (polls i) (by omega) (by omega)
        refine ⟨t, snap, heq, hb, ?_⟩
        rcases hsnap with hsnap | ⟨j, hj⟩
        · exact Or.inr ⟨i, hsnap⟩
        · exact Or.inr ⟨j, hj⟩
    · rw [if_neg hel]
      exact ⟨elapsed, lastResponse, rfl, h1, Or.inl rfl⟩

/-- Claim C8: for every sequence of upstream poll responses and every
iteration duration stream bounded below by the minimal sleeps (3s poll
sleep plus 1s keep-alive sleep) and above by `D` (one poll interval), the
synchronous wait loop of `generateSongs` — entered with 5000 ms already
elapsed after the initial `sleep(5, 5)` and 24 iterations of fuel, which
the duration lower bound makes sufficient — always returns, within the
100000 ms poll window plus at most one poll interval, and the returned
snapshot is the last fetched one (or the initial empty list if the deadline
elapsed before any fetch). -/
theorem generateSongs_wait_returns_within_window (polls : Nat → List Clip)
    (dur : Nat → Nat) (D : Nat) (hmin : ∀ i, 4000 ≤ dur i) (hmax : ∀ i, dur i ≤ D) :
    ∃ t snap, pollLoop polls dur 24 0 5000 [] = some (t, snap) ∧
      t < 100000 + D ∧ (snap = [] ∨ ∃ j, snap = polls j) :=
  pollLoop_exits_within_window polls dur D hmin hmax 24 0 5000 []
    (by omega) (by omega)

/-- Witness for C8 at a concrete input: constant 4000 ms iterations and an
upstream that always reports one clip stuck in `submitted`. -/
theorem generateSongs_wait_returns_within_window_witness :
    ∃ t snap,
      pollLoop (fun _ => [⟨"clip1", "submitted"⟩]) (fun _ => 4000) 24 0 5000 [] =
        some (t, snap) ∧
      t < 100000 + 4000 ∧
      (snap = [] ∨ ∃ j, snap = (fun _ : Nat => [(⟨"clip1", "submitted"⟩ : Clip)]) j) :=
  generateSongs_wait_returns_within_window (fun _ => [⟨"clip1", "submitted"⟩])
    (fun _ => 4000) 4000 (fun _ => by simp) (fun _ => by simp)

/-- Claim C9: `generateLyrics` sleeps a fixed, non-randomized 2000 ms
between lyric fetches (`sleep(2)` with no second bound, so the random draw
is irrelevant), returns only a response whose status is `"complete"`, and
applies no deadline: whenever the upstream status is never `"complete"`,
the loop is still running after every finite number of iterations. -/
theorem generateLyrics_fixed_interval_no_deadline (resp : Nat → LyricsData) :
    (∀ r, sleepTimeout 2 none r = 2000) ∧
    (∀ fuel i d, lyricsPoll resp fuel i = some d → d.status = "complete") ∧
    ((∀ i, (resp i).status ≠ "complete") → ∀ fuel i, lyricsPoll resp fuel i = none) := by
  refine ⟨fun r => rfl, ?_, ?_⟩
  · intro fuel
    induction fuel with
    | zero => intro i d h; exact absurd h (by simp [lyricsPoll])
    | succ fuel ih =>
      intro i d h
      rw [lyricsPoll] at h
      by_cases hc : (resp i).status = "complete"
      · rw [if_pos hc] at h
        obtain rfl : resp i = d := Option.some.inj h
        exact hc
      · rw [if_neg hc] at h
        exact ih (i + 1) d h
  · intro hnever fuel
    induction fuel with
    | zero => intro i; rfl
    | succ fuel ih =>
      intro i
      rw [lyricsPoll, if_neg (hnever i)]
      exact ih (i + 1)

/-- Witness for C9 at a concrete input: an upstream stuck on `"pending"`
leaves the loop still running after 5 iterations. -/
theorem generateLyrics_fixed_interval_no_deadline_witness :
    lyricsPoll (fun _ => ⟨"pending"⟩) 5 0 = none :=
  (generateLyrics_fixed_interval_no_deadline (fun _ => ⟨"pending"⟩)).2.2
    (fun _ => by decide) 5 0

/-- Claim C10: when a synchronous submission is accepted with an empty
clips list, the poll loop's all-completed check is vacuously true over the
empty batch, so the wait returns right after the first status fetch — at
5000 ms elapsed, well before the 100000 ms window — with an empty result
list. -/
theorem generateSongs_wait_empty_batch (statusAt : Nat → String → String)
    (dur : Nat → Nat) (fuel : Nat) :
    pollLoop (fun i => feedFetch statusAt i []) dur (fuel + 1) 0 5000 [] =
      some (5000, []) := by
  rw [pollLoop]
  simp [feedFetch, allCompleted]

end SunoServer
